import Mathlib

/-!
Verification of the cache-and-fetch-orchestration core of the RevTrack
product-analysis endpoint.

The development shallowly embeds, from the TypeScript source:
  * the external producer adapter `runPythonScript` (retry loop with
    exponential backoff, close-event classification of the worker process),
  * the field-defaulting wrappers `scrapeAmazonProduct` / `analyzeReviews`,
  * the request handler `POST` (validation, cache lookup, settled-result
    classification, derived-field computation, result assembly, cache write).

External JavaScript builtins (`parseFloat`, `parseInt`, number-to-string
conversion, `new URL`, `JSON.parse`, `Math.random`, the `Number` coercion)
are modelled as explicit function parameters: every theorem below is
quantified over them, so no result depends on their particular behaviour
beyond the hypotheses stated.

The result cache (`@/lib/cache`) is imported by the handler but its module
is not part of the sources at hand; it is modelled from the spec (see
`Cache` below).
-/

namespace RevTrack

/-- JavaScript `String.prototype.toLowerCase` (character-wise lowering). -/
def toLowerStr (s : String) : String :=
  String.mk (s.data.map Char.toLower)

/-- JavaScript `String.prototype.includes`: substring containment. -/
def containsSub (s sub : String) : Bool :=
  decide (sub.data <:+: s.data)

/-- The character class removed by `replace(/[₹$,\s]/g, '')` in
`parseIndianPrice`: currency symbols, comma and whitespace. -/
def isStrippedChar (c : Char) : Bool :=
  c = '₹' || c = '$' || c = ',' || c = ' ' || c = '\t' || c = '\n' || c = '\r'

/-- The replacement `replace(/[₹$,\s]/g, '')`. -/
def stripCurrency (s : String) : String :=
  String.mk (s.data.filter fun c => !isStrippedChar c)

/-- The replacement `replace(/[^0-9.]/g, '')`: keep only digits and dots. -/
def keepNumDot (s : String) : String :=
  String.mk (s.data.filter fun c => c.isDigit || c = '.')

/-- JavaScript `s || d` for strings: the empty string is falsy. -/
def orDefault (s d : String) : String :=
  if s = "" then d else s

/-- JavaScript `Math.round` on exact rationals: round half up. -/
def jsRound (q : ℚ) : ℤ :=
  ⌊q + 1/2⌋

/-- Comparison `x ≥ c` on a possibly-NaN JavaScript number (`none` models NaN, for
which every comparison is false). -/
def optGe (o : Option ℚ) (c : ℚ) : Bool :=
  match o with
  | some q => decide (c ≤ q)
  | none => false

/-- Comparison `x ≤ c` on a possibly-NaN JavaScript number. -/
def optLe (o : Option ℚ) (c : ℚ) : Bool :=
  match o with
  | some q => decide (q ≤ c)
  | none => false

/-- Comparison `x > c` on a possibly-NaN JavaScript number. -/
def optGt (o : Option ℚ) (c : ℚ) : Bool :=
  match o with
  | some q => decide (c < q)
  | none => false

/-- Comparison `x ≥ c` on a possibly-NaN JavaScript integer (`parseInt` result). -/
def optIntGe (o : Option ℤ) (c : ℤ) : Bool :=
  match o with
  | some i => decide (c ≤ i)
  | none => false

/-- Comparison `x < c` on a possibly-NaN JavaScript integer. -/
def optIntLt (o : Option ℤ) (c : ℤ) : Bool :=
  match o with
  | some i => decide (i < c)
  | none => false

/-! ## JSON values (payloads crossing the process boundary) -/

/-- A JavaScript runtime value, as far as the adapter layer observes it. -/
inductive JsValue where
  | null
  | undefined
  | bool (b : Bool)
  | num (q : ℚ)
  | str (s : String)
  | arr (elems : List JsValue)
  | obj (fields : List (String × JsValue))

/-- Property access `v[k]`: a missing key, or access on a non-object,
yields `undefined`. -/
def JsValue.get (v : JsValue) (k : String) : JsValue :=
  match v with
  | .obj fields =>
    match fields.find? (fun p => p.1 = k) with
    | some p => p.2
    | none => .undefined
  | _ => .undefined

/-- JavaScript nullish test (`x ?? d` replaces exactly `null` and
`undefined`). -/
def JsValue.nullish (v : JsValue) : Bool :=
  match v with
  | .null => true
  | .undefined => true
  | _ => false

/-- JavaScript `x ?? d`. -/
def JsValue.coalesce (v d : JsValue) : JsValue :=
  if v.nullish then d else v

/-- JavaScript truthiness of a runtime value. -/
def JsValue.truthy (v : JsValue) : Bool :=
  match v with
  | .null => false
  | .undefined => false
  | .bool b => b
  | .num q => decide (q ≠ 0)
  | .str s => decide (s ≠ "")
  | .arr _ => true
  | .obj _ => true

/-- JavaScript `Array.isArray`. -/
def JsValue.isArray (v : JsValue) : Bool :=
  match v with
  | .arr _ => true
  | _ => false

/-! ## External producer adapter (`runPythonScript` in python-utils.ts) -/

/-- Constant `MAX_RETRIES = 2`: node-level retries for the Python process. -/
def MAX_RETRIES : ℕ := 2

/-- Constant `RETRY_DELAY = 1000`: base delay (ms) for exponential backoff. -/
def RETRY_DELAY : ℕ := 1000

/-- Backoff `getRetryDelay(attempt) = RETRY_DELAY * 2^attempt`. -/
def getRetryDelay (attempt : ℕ) : ℕ :=
  RETRY_DELAY * 2 ^ attempt

/-- The rate-limit indicator substrings inspected on the diagnostic
stream of a failed worker. -/
def rateLimitIndicators : List String :=
  ["429", "rate limit", "too many requests", "blocked"]

/-- The check `errorData.includes('429') || errorData.includes('rate limit') ||
errorData.includes('too many requests') || errorData.includes('blocked')`. -/
def isRateLimitStderr (errorData : String) : Bool :=
  rateLimitIndicators.any (containsSub errorData)

/-- Outcome of the `close` handler of one worker invocation. -/
inductive CloseOutcome where
  | rateLimited
  | processFailure (msg : String)
  | parseFailure (msg : String)
  | payload (v : JsValue)

/-- The fallback `parsed.data ?? parsed ?? {}` applied to a successfully
parsed payload. -/
def extractPayload (parsed : JsValue) : JsValue :=
  ((parsed.get "data").coalesce parsed).coalesce (.obj [])

/-- The `close` handler of one worker invocation (python-utils.ts lines
108–138): on nonzero exit status, inspect the diagnostic stream for
rate-limit indicators, yielding `rateLimited` if one occurs and a generic
process failure otherwise; on zero exit status, parse the output stream
(`parseJson` models `JSON.parse`, `none` modelling a parse exception),
yielding the extracted payload or a parse failure. -/
def handleClose (parseJson : String → Option JsValue) (code : ℤ)
    (data errorData : String) : CloseOutcome :=
  if code ≠ 0 then
    if isRateLimitStderr errorData then
      .rateLimited
    else
      .processFailure ("Python script failed with code " ++ toString code
        ++ "\nstdout: " ++ data ++ "\nstderr: " ++ errorData)
  else
    match parseJson data with
    | some parsed => .payload (extractPayload parsed)
    | none => .parseFailure "Failed to parse Python script output"

/-- An attempt's settled result: the value the inner promise of
`runPythonScript` resolves with, or the message of the error it rejects
with (`RATE_LIMITED`, a process/parse/timeout/spawn message). -/
abbrev AttemptResult := Except String JsValue

/-- The retry loop of `runPythonScript`, at loop index `attempt` with
`remaining` further loop iterations allowed (`remaining = maxRetries -
attempt`, so `remaining = 0` on the final attempt): returns the surfaced
result together with the list of backoff delays slept, in order. A
failed attempt that is not the final one sleeps `getRetryDelay attempt`
and retries; the final failure is surfaced as is. -/
def runPyLoop (attempts : ℕ → AttemptResult) (attempt : ℕ) :
    (remaining : ℕ) → AttemptResult × List ℕ
  | 0 =>
    match attempts attempt with
    | .ok v => (.ok v, [])
    | .error e => (.error e, [])
  | r + 1 =>
    match attempts attempt with
    | .ok v => (.ok v, [])
    | .error _ =>
      let rest := runPyLoop attempts (attempt + 1) r
      (rest.1, getRetryDelay attempt :: rest.2)

/-- The adapter `runPythonScript(script, arg, maxRetries)`: attempts are indexed from
0 and run up to index `maxRetries`; the pair is the surfaced result and
the backoff delays slept. -/
def runPythonScript (attempts : ℕ → AttemptResult) (maxRetries : ℕ := MAX_RETRIES) :
    AttemptResult × List ℕ :=
  runPyLoop attempts 0 maxRetries

/-! ## Scraper wrappers (`scrapeAmazonProduct`, `analyzeReviews`) -/

/-- The record `scrapeAmazonProduct` builds, before the TypeScript
annotation narrows the field types: each field is exactly the JavaScript
expression of lines 176–188 of python-utils.ts, so string-typed fields
are kept as runtime values and the two `Number(...)` coercions are
applied through the explicit coercion function. -/
structure ScrapedProduct where
  asin : JsValue
  title : JsValue
  price : JsValue
  original_price : JsValue
  discount_percentage : JsValue
  rating : ℚ
  reviewCount : ℚ
  availability : JsValue
  features : List JsValue
  description : JsValue
  images : List JsValue

/-- The wrapper `scrapeAmazonProduct`, given the payload `data` returned by
`runPythonScript` and the JavaScript `Number` coercion `jsNumber`. -/
def scrapeAmazonProduct (jsNumber : JsValue → ℚ) (data : JsValue) : ScrapedProduct :=
  { asin := (data.get "asin").coalesce (.str "N/A")
    title := (data.get "title").coalesce (.str "N/A")
    price := (data.get "price").coalesce (.str "N/A")
    original_price := (data.get "original_price").coalesce .null
    discount_percentage := (data.get "discount_percentage").coalesce .null
    rating := jsNumber ((data.get "rating").coalesce (.num 0))
    reviewCount := jsNumber ((data.get "reviewCount").coalesce (.num 0))
    availability := (data.get "availability").coalesce (.str "N/A")
    features := match data.get "features" with
      | .arr l => l
      | _ => []
    description := (data.get "description").coalesce (.str "N/A")
    images := match data.get "images" with
      | .arr l => l
      | _ => [] }

/-- One review record as produced by `analyzeReviews`. -/
structure Review where
  Description : String
  Stars : String
deriving DecidableEq, Repr

/-- The body of `analyzeReviews` after the adapter call: a non-array payload
collapses to `[]`, an array is mapped field-wise with `?? ""` / `?? "0"`
defaults (non-string runtime values kept abstract via `asString`, the
JavaScript identity on strings). -/
def analyzeReviewsPost (asString : JsValue → String) (data : JsValue) : List Review :=
  match data with
  | .arr l =>
    l.map fun r =>
      { Description := asString ((r.get "Description").coalesce (.str ""))
        Stars := asString ((r.get "Stars").coalesce (.str "0")) }
  | _ => []

/-! ## Result cache

Modelled from the spec: the module `@/lib/cache` backing `productCache`
is not among the sources at hand (only its call sites in the route are),
so `Cache` realises §4.3 of the spec: `get` answers the stored value iff
an entry exists and `now - storedAt < TTL`, an expired entry being
indistinguishable from an absent one; `set` unconditionally inserts or
overwrites, stamping the current time. -/

/-- TTL configuration constant (30 minutes, in ms). -/
def TTL : ℕ := 30 * 60 * 1000

/-- One cache entry: stored value plus its storage timestamp. -/
structure CacheEntry (α : Type) where
  value : α
  storedAt : ℕ

/-- The key-value result cache, keyed by the request URL string. -/
structure Cache (α : Type) where
  entries : List (String × CacheEntry α)

/-- The empty cache. -/
def Cache.empty {α : Type} : Cache α := ⟨[]⟩

/-- Raw entry lookup (physical storage, expiration not yet applied). -/
def Cache.find? {α : Type} (c : Cache α) (k : String) : Option (CacheEntry α) :=
  (c.entries.find? (fun p => p.1 = k)).map (·.2)

/-- Lookup `cache.get(k)` at time `now`: the stored value only if the entry
exists and has not expired; an expired entry is a miss. -/
def Cache.get {α : Type} (c : Cache α) (now : ℕ) (k : String) : Option α :=
  match c.find? k with
  | some e => if now - e.storedAt < TTL then some e.value else none
  | none => none

/-- Store `cache.set(k, v)` at time `now`: insert or overwrite, stamping `now`. -/
def Cache.set {α : Type} (c : Cache α) (now : ℕ) (k : String) (v : α) : Cache α :=
  ⟨(k, ⟨v, now⟩) :: c.entries.filter (fun p => p.1 ≠ k)⟩

/-! ## Request handler (the route's `POST`) -/

/-- Comparison `x < c` on a possibly-NaN JavaScript number. -/
def optLt (o : Option ℚ) (c : ℚ) : Bool :=
  match o with
  | some q => decide (q < c)
  | none => false

/-- The `ProductData` interface of python-utils.ts, as the route consumes
it from a fulfilled `scrapeAmazonProduct` promise. -/
structure ProductData where
  title : String
  price : String
  original_price : Option String
  discount_percentage : Option String
  rating : ℚ
  reviewCount : ℚ
  availability : String
  images : List String
  description : String
  features : List String
  asin : String
deriving DecidableEq, Repr

/-- A settled promise, as `Promise.allSettled` reports it. -/
inductive Settled (α : Type) where
  | fulfilled (value : α)
  | rejected (reason : String)
deriving DecidableEq, Repr

/-- The `url` field of the parsed request body. -/
inductive ReqBody where
  | missing
  | notString
  | urlStr (url : String)
deriving DecidableEq, Repr

/-- The part of a parsed `new URL(...)` object the route inspects. -/
structure UrlParts where
  hostname : String
deriving DecidableEq, Repr

/-- The JavaScript builtins and nondeterministic inputs the route closes
over: `parseFloat`, `parseInt` (`none` modelling NaN), number-to-string
conversion, `new URL` (`none` modelling the constructor throwing), and
the `Math.random()` draws / date strings consumed by
`generatePriceHistory`. -/
structure JsEnv where
  parseFloatFn : String → Option ℚ
  parseIntFn : String → Option ℤ
  numToStr : ℚ → String
  parseUrl : String → Option UrlParts
  randoms : List ℚ
  dates : List String

/-- The predicate `isValidAmazonUrl` (route lines 23–31): the lowercased hostname
contains `"amazon"` or `"amzn"`; an unparseable URL is invalid. -/
def isValidAmazonUrl (env : JsEnv) (url : String) : Bool :=
  match env.parseUrl url with
  | some u =>
    containsSub (toLowerStr u.hostname) "amazon" || containsSub (toLowerStr u.hostname) "amzn"
  | none => false

/-- The helper `parseIndianPrice` (route lines 82–90). -/
def parseIndianPrice (env : JsEnv) (priceString : String) : ℚ :=
  if priceString = "" ∨ priceString = "N/A" then 1000
  else
    match env.parseFloatFn (keepNumDot (stripCurrency priceString)) with
    | some q => if 0 < q then q else 1000
    | none => 1000

/-- One point of the fabricated price history. -/
structure PricePoint where
  date : String
  price : ℚ
deriving DecidableEq, Repr

/-- The fabricated `generatePriceHistory`: one point per `(date, Math.random())` pair
(four in the real loop), price clamped below at 80% of current and
rounded to two decimals. -/
def generatePriceHistory (currentPrice : ℚ) (randoms : List ℚ)
    (dates : List String) : List PricePoint :=
  (dates.zip randoms).map fun p =>
    let variation := (p.2 - 1/2) * 10
    let price := max (currentPrice + variation) (currentPrice * (4/5))
    ⟨p.1, (jsRound (price * 100) : ℚ) / 100⟩

/-- Sentiment estimate triple. -/
structure Sentiment where
  positive : ℤ
  neutral : ℤ
  negative : ℤ
deriving DecidableEq, Repr

/-- The default sentiment estimate (route lines 96–100). -/
def defaultSentiment : Sentiment :=
  ⟨60, 25, 15⟩

/-- One review's star parse for sentiment (route line 105):
`parseFloat(review.Stars?.replace(/[^0-9.]/g, '') || '3')`. -/
def sentimentStars (env : JsEnv) (r : Review) : Option ℚ :=
  env.parseFloatFn (orDefault (keepNumDot r.Stars) "3")

/-- One review's star parse for pros/cons (route lines 220 and 243):
`parseFloat(r.Stars?.replace(/[^0-9.]/g, '') || '0')`. -/
def prosConsStars (env : JsEnv) (r : Review) : Option ℚ :=
  env.parseFloatFn (orDefault (keepNumDot r.Stars) "0")

/-- The sentiment computation (route lines 96–146): review-based when
reviews exist, otherwise estimated from the product's overall rating,
otherwise the default. -/
def computeSentiment (env : JsEnv) (reviews : List Review) (rating : ℚ) : Sentiment :=
  if reviews.length > 0 then
    let ratings := reviews.map (sentimentStars env)
    if ratings.length > 0 then
      let total : ℚ := ratings.length
      let pos := (ratings.filter fun o => optGe o 4).length
      let neg := (ratings.filter fun o => optLe o 2).length
      let neu := ratings.length - pos - neg
      { positive := jsRound ((pos : ℚ) / total * 100)
        neutral := jsRound ((neu : ℚ) / total * 100)
        negative := jsRound ((neg : ℚ) / total * 100) }
    else
      defaultSentiment
  else if rating ≠ 0 then
    match env.parseFloatFn (orDefault (keepNumDot (env.numToStr rating)) "0") with
    | some avg =>
      if 4 ≤ avg then
        ⟨jsRound (70 + (avg - 4) * 15), jsRound (20 - (avg - 4) * 5),
          jsRound (10 - (avg - 4) * 5)⟩
      else if 3 ≤ avg then
        ⟨jsRound (40 + (avg - 3) * 30), jsRound (35 - (avg - 3) * 5),
          jsRound (25 - (avg - 3) * 10)⟩
      else if 0 < avg then
        ⟨jsRound (15 + avg * 8), jsRound (20 + avg * 5), jsRound (65 - avg * 13)⟩
      else
        defaultSentiment
    | none => defaultSentiment
  else
    defaultSentiment

/-- The value `avgRating` of route line 152:
`parseFloat(String(productInfo.rating || '0').replace(/[^0-9.]/g, '') || '0')`. -/
def avgRatingOf (env : JsEnv) (rating : ℚ) : Option ℚ :=
  let base := if rating ≠ 0 then env.numToStr rating else "0"
  env.parseFloatFn (orDefault (keepNumDot base) "0")

/-- Integer-or-NaN rendered back into a template string. -/
def jsIntStr (o : Option ℤ) : String :=
  match o with
  | some i => toString i
  | none => "NaN"

/-- The rating-based insight (route lines 153–161). -/
def ratingInsight (avg : Option ℚ) : List String :=
  if optGe avg (9/2) then ["Highly rated product with excellent customer satisfaction"]
  else if optGe avg 4 then ["Well-received product with strong customer ratings"]
  else if optGe avg 3 then ["Product has mixed reviews from customers"]
  else if optGt avg 0 then ["Product has lower ratings, consider alternatives"]
  else []

/-- The availability insight (route lines 164–170). -/
def availabilityInsight (availability : String) : List String :=
  if availability ≠ "" ∧ availability ≠ "N/A" then
    if containsSub (toLowerStr availability) "in stock" then
      ["Currently available for immediate purchase"]
    else if containsSub (toLowerStr availability) "out of stock" then
      ["Currently out of stock - check back later"]
    else []
  else []

/-- The discount insight (route lines 173–180). -/
def discountInsight (env : JsEnv) (dp : Option String) : List String :=
  match dp with
  | some d =>
    if d ≠ "" then
      let di := env.parseIntFn d
      if optIntGe di 30 then
        ["Great deal with " ++ jsIntStr di ++ "% discount currently available"]
      else if optIntGe di 15 then
        ["Moderate discount of " ++ jsIntStr di ++ "% off regular price"]
      else []
    else []
  | none => []

/-- The review-count insight (route lines 183–187). -/
def reviewCountInsight (env : JsEnv) (reviewsLen : ℕ) (reviewCount : ℚ) : List String :=
  if reviewsLen > 0 then
    ["Analysis based on " ++ toString reviewsLen ++ " recent customer reviews"]
  else if reviewCount ≠ 0 ∧ 0 < reviewCount then
    ["Product has " ++ env.numToStr reviewCount ++ " total customer reviews"]
  else []

/-- The `keyInsights` list (route lines 149–192), with the fallback of lines
190–192 when nothing was pushed. -/
def keyInsightsOf (env : JsEnv) (pd : ProductData) (reviewsLen : ℕ) : List String :=
  let l := ratingInsight (avgRatingOf env pd.rating)
    ++ availabilityInsight pd.availability
    ++ discountInsight env pd.discount_percentage
    ++ reviewCountInsight env reviewsLen pd.reviewCount
  if l.isEmpty then ["Limited review data available for detailed analysis"] else l

/-- The count of reviews whose pros/cons star parse is `≥ c`. -/
def countStarsGe (env : JsEnv) (reviews : List Review) (c : ℚ) : ℕ :=
  (reviews.filter fun r => optGe (prosConsStars env r) c).length

/-- The count of reviews whose pros/cons star parse is `≤ c`. -/
def countStarsLe (env : JsEnv) (reviews : List Review) (c : ℚ) : ℕ :=
  (reviews.filter fun r => optLe (prosConsStars env r) c).length

/-- The `pros` list (route lines 195–226 and the fallback of lines 252–257). -/
def prosOf (env : JsEnv) (pd : ProductData) (reviews : List Review) : List String :=
  let avg := avgRatingOf env pd.rating
  let p1 := if optGe avg 4 then
      ["High customer rating of " ++ env.numToStr pd.rating ++ "/5.0"] else []
  let p2 := match pd.discount_percentage with
    | some d =>
      if d ≠ "" ∧ optIntGe (env.parseIntFn d) 15 then
        ["Currently " ++ d ++ "% off regular price"] else []
    | none => []
  let p3 := if containsSub (toLowerStr pd.availability) "in stock" then
      ["Available for immediate purchase"] else []
  let p4 := if pd.reviewCount ≠ 0 ∧ 0 < pd.reviewCount ∧ 100 < pd.reviewCount then
      ["Trusted by " ++ env.numToStr pd.reviewCount ++ " customers"] else []
  let p5 := if reviews.length > 0 ∧
      (7/10 : ℚ) ≤ (countStarsGe env reviews 4 : ℚ) / (reviews.length : ℚ) then
      ["Majority of recent reviews are positive"] else []
  let l := p1 ++ p2 ++ p3 ++ p4 ++ p5
  if l.isEmpty then
    "Product available on Amazon marketplace" ::
      (if pd.features.length > 0 then ["Detailed product specifications available"] else [])
  else l

/-- The `cons` list (route lines 196–249 and the fallback of lines 259–261). -/
def consOf (env : JsEnv) (pd : ProductData) (reviews : List Review) : List String :=
  let avg := avgRatingOf env pd.rating
  let c1 := if optLt avg 4 ∧ optGt avg 0 then ["Mixed or lower customer ratings"] else []
  let c2 := if (match pd.discount_percentage with
      | none => true
      | some d => if d = "" then true else optIntLt (env.parseIntFn d) 5) then
      ["Limited or no discount currently available"] else []
  let c3 := if containsSub (toLowerStr pd.availability) "out of stock" then
      ["Currently out of stock"] else []
  let c4 := if reviews.length > 0 ∧
      (1/5 : ℚ) ≤ (countStarsLe env reviews 2 : ℚ) / (reviews.length : ℚ) then
      ["Some customers report issues or dissatisfaction"] else []
  let l := c1 ++ c2 ++ c3 ++ c4
  if l.isEmpty then ["Limited recent review data for comprehensive analysis"] else l

/-- Minimum of a price list (`Math.min(...)`, empty list not reached in
the route: the history always has four points). -/
def listMin (l : List ℚ) : ℚ :=
  match l with
  | [] => 0
  | h :: t => t.foldl min h

/-- Maximum of a price list (`Math.max(...)`). -/
def listMax (l : List ℚ) : ℚ :=
  match l with
  | [] => 0
  | h :: t => t.foldl max h

/-- The `priceComparison` block (route lines 264–270). -/
structure PriceComparison where
  current : String
  lowest : ℚ
  highest : ℚ
  average : ℚ
  trend : String
deriving DecidableEq, Repr

/-- Route lines 264–270. -/
def priceComparisonOf (current : String) (history : List PricePoint) : PriceComparison :=
  { current := current
    lowest := listMin (history.map (·.price))
    highest := listMax (history.map (·.price))
    average := (history.map (·.price)).sum / (history.length : ℚ)
    trend := if (history.getLastD ⟨"", 0⟩).price > (history.headD ⟨"", 0⟩).price
      then "increasing" else "decreasing" }

/-- The `price` block of the assembled result. -/
structure PriceBlock where
  current : String
  original : Option String
  discount : Option String
  comparison : PriceComparison
  history : List PricePoint
deriving DecidableEq, Repr

/-- The `rating` block of the assembled result. -/
structure RatingBlock where
  average : ℚ
  count : ℚ
deriving DecidableEq, Repr

/-- The `analysis` block of the assembled result. -/
structure AnalysisBlock where
  sentiment : Sentiment
  keyInsights : List String
  pros : List String
  cons : List String
  reviewCount : ℕ
deriving DecidableEq, Repr

/-- The assembled response payload (route lines 272–301); `cached` is
absent (`false`) on a fresh result and set on a cache-hit response. -/
structure ResultPayload where
  title : String
  productUrl : String
  asin : String
  price : PriceBlock
  rating : RatingBlock
  availability : String
  images : List String
  features : List String
  description : String
  reviews : List Review
  analysis : AnalysisBlock
  lastUpdated : ℕ
  processingTime : ℕ
  cached : Bool
deriving DecidableEq, Repr

/-- Result assembly on the success path (route lines 79–301). -/
def assembleResult (env : JsEnv) (startTime now : ℕ) (url : String)
    (pd : ProductData) (reviews : List Review) : ResultPayload :=
  let currentPrice := parseIndianPrice env pd.price
  let priceHistory := generatePriceHistory currentPrice env.randoms env.dates
  { title := pd.title
    productUrl := url
    asin := pd.asin
    price :=
      { current := pd.price
        original := pd.original_price
        discount := match pd.discount_percentage with
          | some d => if d ≠ "" then some (d ++ "%") else none
          | none => none
        comparison := priceComparisonOf pd.price priceHistory
        history := priceHistory }
    rating := { average := pd.rating, count := pd.reviewCount }
    availability := pd.availability
    images := pd.images
    features := pd.features
    description := pd.description
    reviews := reviews.take 25
    analysis :=
      { sentiment := computeSentiment env reviews pd.rating
        keyInsights := keyInsightsOf env pd reviews.length
        pros := prosOf env pd reviews
        cons := consOf env pd reviews
        reviewCount := reviews.length }
    lastUpdated := now
    processingTime := now - startTime
    cached := false }

/-- A handler response: the success payload, or a failure with HTTP
status, `error` summary and optional `details` text. -/
inductive Response where
  | success (r : ResultPayload)
  | failure (status : ℕ) (error : String) (details : Option String)
deriving DecidableEq, Repr

/-- Whether a response is a failure. -/
def Response.isFailure (r : Response) : Bool :=
  match r with
  | .success _ => false
  | .failure _ _ _ => true

/-- The status code of a response (200 for success). -/
def Response.status (r : Response) : ℕ :=
  match r with
  | .success _ => 200
  | .failure s _ _ => s

/-- Result of one `handle` run: the response, the cache afterwards, and
whether the parallel fetch (the external producer) was reached at all. -/
structure HandleOut where
  response : Response
  cacheAfter : Cache ResultPayload
  fetched : Bool

/-- The primary-classification check of route line 62:
`productData.status === 'rejected' || !productData.value ||
!productData.value.title || productData.value.title === "N/A"`
(a falsy fulfilled value is modelled by `none`, a falsy title by `""`). -/
def primaryUnusable (p : Settled (Option ProductData)) : Bool :=
  match p with
  | .rejected _ => true
  | .fulfilled none => true
  | .fulfilled (some pd) => pd.title = "" || pd.title = "N/A"

/-- The secondary classification of route lines 70–77: reviews are taken
only from a fulfilled promise whose value is an array (`none` modelling a
non-array value); anything else degrades to `[]`. -/
def reviewsOf (s : Settled (Option (List Review))) : List Review :=
  match s with
  | .fulfilled (some rs) => rs
  | _ => []

/-- Route lines 56–308, after a cache miss: classify the settled primary
and secondary fetches, assemble the result, cache it, and respond. -/
def processMiss (env : JsEnv) (cache : Cache ResultPayload) (startTime now : ℕ)
    (url : String) (primary : Settled (Option ProductData))
    (secondary : Settled (Option (List Review))) : HandleOut :=
  if primaryUnusable primary then
    ⟨.failure 400 "Unable to extract product information"
      (some ("The product page may be protected or temporarily unavailable. "
        ++ "Please try again in a few minutes.")), cache, true⟩
  else
    match primary with
    | .fulfilled (some pd) =>
      let result := assembleResult env startTime now url pd (reviewsOf secondary)
      ⟨.success result, cache.set now url result, true⟩
    | _ =>
      ⟨.failure 400 "Unable to extract product information"
        (some ("The product page may be protected or temporarily unavailable. "
          ++ "Please try again in a few minutes.")), cache, true⟩

/-- The handler `POST` (route lines 5–340): body-shape validation, URL syntax
validation, accepted-domain validation, cache lookup, then the miss
path. The settled fetch results are passed as parameters and consumed
only when the fetch stage is reached (`fetched = true`). -/
def handle (env : JsEnv) (cache : Cache ResultPayload) (startTime now : ℕ)
    (body : ReqBody) (primary : Settled (Option ProductData))
    (secondary : Settled (Option (List Review))) : HandleOut :=
  match body with
  | .missing => ⟨.failure 400 "Valid URL is required" none, cache, false⟩
  | .notString => ⟨.failure 400 "Valid URL is required" none, cache, false⟩
  | .urlStr url =>
    if url = "" then
      ⟨.failure 400 "Valid URL is required" none, cache, false⟩
    else
      match env.parseUrl url with
      | none => ⟨.failure 400 "Invalid URL format" none, cache, false⟩
      | some _ =>
        if isValidAmazonUrl env url then
          match cache.get now url with
          | some v =>
            ⟨.success { v with cached := true, lastUpdated := now }, cache, false⟩
          | none => processMiss env cache startTime now url primary secondary
        else
          ⟨.failure 400 "Only Amazon URLs are supported" none, cache, false⟩

/-! ## Theorems -/

theorem runPyLoop_congr (f g : ℕ → AttemptResult) :
    ∀ (r attempt : ℕ), (∀ i, attempt ≤ i → i ≤ attempt + r → f i = g i) →
      runPyLoop f attempt r = runPyLoop g attempt r := by
  intro r
  induction r with
  | zero =>
    intro attempt h
    have hA := h attempt (le_refl _) (by omega)
    simp [runPyLoop, hA]
  | succ n ih =>
    intro attempt h
    have hA := h attempt (le_refl _) (by omega)
    have hrec := ih (attempt + 1) (fun i h1 h2 => h i (by omega) (by omega))
    simp [runPyLoop, hA, hrec]

theorem runPyLoop_delays (attempts : ℕ → AttemptResult) :
    ∀ (r attempt : ℕ), ∃ k, k ≤ r ∧
      (runPyLoop attempts attempt r).2 =
        (List.range k).map (fun i => getRetryDelay (attempt + i)) := by
  intro r
  induction r with
  | zero =>
    intro attempt
    refine ⟨0, le_refl 0, ?_⟩
    cases h : attempts attempt <;> simp [runPyLoop, h]
  | succ n ih =>
    intro attempt
    cases h : attempts attempt with
    | ok v => exact ⟨0, Nat.zero_le _, by simp [runPyLoop, h]⟩
    | error e =>
      obtain ⟨k, hk, hd⟩ := ih (attempt + 1)
      refine ⟨k + 1, by omega, ?_⟩
      simp only [runPyLoop, h]
      rw [hd, List.range_succ_eq_map, List.map_cons, List.map_map]
      have hf : (fun i => getRetryDelay (attempt + 1 + i)) =
          ((fun i => getRetryDelay (attempt + i)) ∘ Nat.succ) := by
        funext i
        exact congrArg getRetryDelay (by omega)
      rw [hf]
      simp

theorem runPyLoop_all_error (attempts : ℕ → AttemptResult) :
    ∀ (r attempt : ℕ),
      (∀ i, attempt ≤ i → i ≤ attempt + r → ∃ m, attempts i = .error m) →
      (runPyLoop attempts attempt r).1 = attempts (attempt + r) := by
  intro r
  induction r with
  | zero =>
    intro attempt h
    obtain ⟨m, hm⟩ := h attempt (le_refl _) (by omega)
    simp [runPyLoop, hm]
  | succ n ih =>
    intro attempt h
    obtain ⟨m, hm⟩ := h attempt (le_refl _) (by omega)
    have hrec := ih (attempt + 1) (fun i h1 h2 => h i (by omega) (by omega))
    simp only [runPyLoop, hm]
    rw [show attempt + (n + 1) = attempt + 1 + n by omega]
    exact hrec

/-- C4: for every invocation of the external producer adapter with retry
budget `maxAttempts`, at most `maxAttempts + 1` attempts are consulted
(the outcome is unchanged under any modification of later attempts);
the backoff delays slept are exactly `RETRY_DELAY * 2 ^ i` for the
consecutive failed non-final attempts `i = 0, 1, …` (at most
`maxAttempts` of them); and if every attempt fails, the failure of the
last attempt (index `maxAttempts`) is surfaced to the caller. -/
theorem adapter_retry_policy (attempts : ℕ → AttemptResult) (maxAttempts : ℕ) :
    (∀ g : ℕ → AttemptResult, (∀ i, i ≤ maxAttempts → g i = attempts i) →
        runPythonScript g maxAttempts = runPythonScript attempts maxAttempts) ∧
    (∃ k, k ≤ maxAttempts ∧
        (runPythonScript attempts maxAttempts).2 =
          (List.range k).map (fun i => RETRY_DELAY * 2 ^ i)) ∧
    ((∀ i, i ≤ maxAttempts → ∃ m, attempts i = .error m) →
        (runPythonScript attempts maxAttempts).1 = attempts maxAttempts) := by
  refine ⟨?_, ?_, ?_⟩
  · intro g hg
    unfold runPythonScript
    exact runPyLoop_congr g attempts maxAttempts 0 (fun i _ h2 => hg i (by omega))
  · obtain ⟨k, hk, hd⟩ := runPyLoop_delays attempts maxAttempts 0
    refine ⟨k, hk, ?_⟩
    unfold runPythonScript
    rw [hd]
    simp [getRetryDelay]
  · intro h
    have := runPyLoop_all_error attempts maxAttempts 0 (fun i _ h2 => h i (by omega))
    simpa [runPythonScript] using this

/-- Witness for C4 at the default budget `MAX_RETRIES = 2` with every
attempt rate-limited: three attempts, backoff delays 1000 ms and
2000 ms, and the last rate-limit failure surfaced. -/
theorem adapter_retry_policy_witness :
    (runPythonScript (fun _ => .error "RATE_LIMITED") MAX_RETRIES).1 =
        .error "RATE_LIMITED" ∧
    (runPythonScript (fun _ => .error "RATE_LIMITED") MAX_RETRIES).2 = [1000, 2000] := by
  constructor
  · exact (adapter_retry_policy (fun _ => .error "RATE_LIMITED") MAX_RETRIES).2.2
      (fun i _ => ⟨"RATE_LIMITED", rfl⟩)
  · decide

theorem isRateLimitStderr_iff (errorData : String) :
    isRateLimitStderr errorData = true ↔
      ∃ ind ∈ rateLimitIndicators, ind.data <:+: errorData.data := by
  simp [isRateLimitStderr, containsSub, List.any_eq_true]

/-- C5: for every worker invocation whose process exits with nonzero
status, the `close` handler classifies the attempt as rate-limited iff the
diagnostic stream contains one of the substrings `"429"`, `"rate limit"`,
`"too many requests"`, `"blocked"`, and as a generic process failure
otherwise; on zero exit status an unparsable output stream yields a parse
failure. -/
theorem close_classification (parseJson : String → Option JsValue) (code : ℤ)
    (data errorData : String) :
    (code ≠ 0 →
      (handleClose parseJson code data errorData = .rateLimited ↔
        ∃ ind ∈ rateLimitIndicators, ind.data <:+: errorData.data)) ∧
    (code ≠ 0 → ¬(∃ ind ∈ rateLimitIndicators, ind.data <:+: errorData.data) →
      ∃ m, handleClose parseJson code data errorData = .processFailure m) ∧
    (code = 0 → parseJson data = none →
      handleClose parseJson code data errorData =
        .parseFailure "Failed to parse Python script output") := by
  refine ⟨?_, ?_, ?_⟩
  · intro hc
    constructor
    · intro heq
      by_cases hrl : isRateLimitStderr errorData = true
      · exact (isRateLimitStderr_iff errorData).mp hrl
      · simp [handleClose, hc, hrl] at heq
    · intro hex
      have hrl := (isRateLimitStderr_iff errorData).mpr hex
      simp [handleClose, hc, hrl]
  · intro hc hnex
    have hrl : isRateLimitStderr errorData = false := by
      rcases Bool.eq_false_or_eq_true (isRateLimitStderr errorData) with h | h
      · exact absurd ((isRateLimitStderr_iff errorData).mp h) hnex
      · exact h
    exact ⟨"Python script failed with code " ++ toString code ++ "\nstdout: "
      ++ data ++ "\nstderr: " ++ errorData, by simp [handleClose, hc, hrl]⟩
  · intro hc hp
    simp [handleClose, hc, hp]

/-- Witness for C5: a 429 diagnostic is rate-limited, a plain failure is a
generic process failure, and unparsable output on exit 0 is a parse
failure. -/
theorem close_classification_witness :
    handleClose (fun _ => none) 1 "" "HTTP 429 Too Many Requests" = .rateLimited ∧
    (∃ m, handleClose (fun _ => none) 1 "" "boom" = .processFailure m) ∧
    handleClose (fun _ => none) 0 "not json" "" =
      .parseFailure "Failed to parse Python script output" := by
  refine ⟨?_, ?_, ?_⟩
  · exact ((close_classification (fun _ => none) 1 "" "HTTP 429 Too Many Requests").1
      (by decide)).mpr ⟨"429", by decide, by decide⟩
  · exact (close_classification (fun _ => none) 1 "" "boom").2.1 (by decide) (by decide)
  · exact (close_classification (fun _ => none) 0 "not json" "").2.2 rfl rfl

/-- C6: once an entry is `TTL` or older, `get` answers absent — exactly
as it does for a key never stored — and a subsequent `set` of the same
key makes the new value visible to `get` again (read at any time within
`TTL` of the write). -/
theorem cache_expiration_law {α : Type} (c : Cache α) (k : String) (v : α)
    (now tset tread : ℕ) :
    ((Cache.empty : Cache α).get now k = none) ∧
    ((∃ e, c.find? k = some e ∧ TTL ≤ now - e.storedAt) → c.get now k = none) ∧
    (tread - tset < TTL → (c.set tset k v).get tread k = some v) := by
  refine ⟨rfl, ?_, ?_⟩
  · rintro ⟨e, he, hexp⟩
    simp only [Cache.get, he]
    rw [if_neg (by omega)]
  · intro h
    have hfind : (c.set tset k v).find? k = some ⟨v, tset⟩ := by
      simp [Cache.set, Cache.find?]
    simp only [Cache.get, hfind]
    rw [if_pos h]

/-- Witness for C6: a value stored at time 0 is absent at time `TTL`, and
re-setting the key at time `TTL` makes the new value visible. -/
theorem cache_expiration_law_witness :
    (Cache.empty.set 0 "k" (7 : ℕ)).get TTL "k" = none ∧
    ((Cache.empty.set 0 "k" (7 : ℕ)).set TTL "k" 8).get TTL "k" = some 8 := by
  constructor
  · exact (cache_expiration_law (Cache.empty.set 0 "k" (7 : ℕ)) "k" 7 TTL 0 0).2.1
      ⟨⟨7, 0⟩, rfl, by decide⟩
  · exact (cache_expiration_law (Cache.empty.set 0 "k" (7 : ℕ)) "k" 8 0 TTL TTL).2.2
      (by decide)

/-- Coalescing `x ?? d` yields `d` exactly on `null` and `undefined`. -/
theorem coalesce_of_nullish (v d : JsValue) (h : v.nullish = true) :
    v.coalesce d = d := by
  simp [JsValue.coalesce, h]

/-- C10: every field of the record built by `scrapeAmazonProduct` is
populated: the five string fields default to `"N/A"` when the payload's
field is nullish, `original_price` and `discount_percentage` default to
`null`, the two numeric coercions default to 0, and `features` / `images`
are the payload's arrays when arrays and empty otherwise. -/
theorem scrape_field_defaults (jsNumber : JsValue → ℚ) (data : JsValue)
    (h0 : jsNumber (.num 0) = 0) :
    ((data.get "title").nullish = true →
      (scrapeAmazonProduct jsNumber data).title = .str "N/A") ∧
    ((data.get "price").nullish = true →
      (scrapeAmazonProduct jsNumber data).price = .str "N/A") ∧
    ((data.get "availability").nullish = true →
      (scrapeAmazonProduct jsNumber data).availability = .str "N/A") ∧
    ((data.get "description").nullish = true →
      (scrapeAmazonProduct jsNumber data).description = .str "N/A") ∧
    ((data.get "asin").nullish = true →
      (scrapeAmazonProduct jsNumber data).asin = .str "N/A") ∧
    ((data.get "original_price").nullish = true →
      (scrapeAmazonProduct jsNumber data).original_price = .null) ∧
    ((data.get "discount_percentage").nullish = true →
      (scrapeAmazonProduct jsNumber data).discount_percentage = .null) ∧
    ((data.get "rating").nullish = true →
      (scrapeAmazonProduct jsNumber data).rating = 0) ∧
    ((data.get "reviewCount").nullish = true →
      (scrapeAmazonProduct jsNumber data).reviewCount = 0) ∧
    ((data.get "features").isArray = false →
      (scrapeAmazonProduct jsNumber data).features = []) ∧
    (∀ l, data.get "features" = .arr l →
      (scrapeAmazonProduct jsNumber data).features = l) ∧
    ((data.get "images").isArray = false →
      (scrapeAmazonProduct jsNumber data).images = []) ∧
    (∀ l, data.get "images" = .arr l →
      (scrapeAmazonProduct jsNumber data).images = l) := by
  refine ⟨?_, ?_, ?_, ?_, ?_, ?_, ?_, ?_, ?_, ?_, ?_, ?_, ?_⟩
  · intro h; simp [scrapeAmazonProduct, coalesce_of_nullish _ _ h]
  · intro h; simp [scrapeAmazonProduct, coalesce_of_nullish _ _ h]
  · intro h; simp [scrapeAmazonProduct, coalesce_of_nullish _ _ h]
  · intro h; simp [scrapeAmazonProduct, coalesce_of_nullish _ _ h]
  · intro h; simp [scrapeAmazonProduct, coalesce_of_nullish _ _ h]
  · intro h; simp [scrapeAmazonProduct, coalesce_of_nullish _ _ h]
  · intro h; simp [scrapeAmazonProduct, coalesce_of_nullish _ _ h]
  · intro h; simp [scrapeAmazonProduct, coalesce_of_nullish _ _ h, h0]
  · intro h; simp [scrapeAmazonProduct, coalesce_of_nullish _ _ h, h0]
  · intro h
    cases hf : data.get "features" <;>
      simp_all [scrapeAmazonProduct, JsValue.isArray]
  · intro l hf; simp [scrapeAmazonProduct, hf]
  · intro h
    cases hf : data.get "images" <;>
      simp_all [scrapeAmazonProduct, JsValue.isArray]
  · intro l hf; simp [scrapeAmazonProduct, hf]

/-- Witness for C10 on the empty payload: every field takes its default. -/
theorem scrape_field_defaults_witness :
    (scrapeAmazonProduct (fun v => match v with | .num q => q | _ => 0)
      (.obj [])).title = .str "N/A" ∧
    (scrapeAmazonProduct (fun v => match v with | .num q => q | _ => 0)
      (.obj [])).rating = 0 ∧
    (scrapeAmazonProduct (fun v => match v with | .num q => q | _ => 0)
      (.obj [])).features = [] := by
  obtain ⟨h1, _, _, _, _, _, _, h8, _, h10, _⟩ :=
    scrape_field_defaults (fun v => match v with | .num q => q | _ => 0) (.obj []) rfl
  exact ⟨h1 rfl, h8 rfl, h10 rfl⟩

/-- A concrete environment whose URL constructor always yields an
Amazon hostname (used to exercise the post-validation stages). -/
def envAmazon : JsEnv :=
  { parseFloatFn := fun _ => none
    parseIntFn := fun _ => none
    numToStr := fun _ => "0"
    parseUrl := fun _ => some ⟨"www.amazon.in"⟩
    randoms := []
    dates := [] }

/-- A concrete environment whose URL constructor always yields a
non-Amazon hostname. -/
def envExample : JsEnv :=
  { parseFloatFn := fun _ => none
    parseIntFn := fun _ => none
    numToStr := fun _ => "0"
    parseUrl := fun _ => some ⟨"example.com"⟩
    randoms := []
    dates := [] }

/-- A concrete usable product snapshot. -/
def pdW : ProductData :=
  { title := "Widget"
    price := "₹999"
    original_price := none
    discount_percentage := none
    rating := 4
    reviewCount := 10
    availability := "In Stock"
    images := []
    description := "d"
    features := []
    asin := "A1" }

theorem exists_parse_of_valid (env : JsEnv) (url : String)
    (h : isValidAmazonUrl env url = true) : ∃ u, env.parseUrl url = some u := by
  unfold isValidAmazonUrl at h
  cases hp : env.parseUrl url with
  | none => rw [hp] at h; simp at h
  | some u => exact ⟨u, rfl⟩

/-- C7: a request whose URL passes validation and has a (non-expired)
cache hit is answered with the stored value annotated as cached and
restamped with the current time; the cache is untouched and the fetch
stage is never reached. -/
theorem cache_hit_bypasses_fetch (env : JsEnv) (cache : Cache ResultPayload)
    (startTime now : ℕ) (url : String) (primary : Settled (Option ProductData))
    (secondary : Settled (Option (List Review))) (v : ResultPayload)
    (hne : url ≠ "") (hvalid : isValidAmazonUrl env url = true)
    (hget : cache.get now url = some v) :
    handle env cache startTime now (.urlStr url) primary secondary =
      ⟨.success { v with cached := true, lastUpdated := now }, cache, false⟩ := by
  obtain ⟨u, hu⟩ := exists_parse_of_valid env url hvalid
  simp [handle, hne, hu, hvalid, hget]

/-- Witness for C7: with a fresh entry stored at time 5 and read at time
5, the handler answers the annotated stored value without fetching. -/
theorem cache_hit_bypasses_fetch_witness :
    handle envAmazon
        (Cache.empty.set 5 "https://www.amazon.in/dp/B012345678"
          (assembleResult envAmazon 0 0 "https://www.amazon.in/dp/B012345678" pdW []))
        0 5 (.urlStr "https://www.amazon.in/dp/B012345678")
        (.rejected "r") (.rejected "r2") =
      ⟨.success { (assembleResult envAmazon 0 0 "https://www.amazon.in/dp/B012345678" pdW [])
          with cached := true, lastUpdated := 5 },
        Cache.empty.set 5 "https://www.amazon.in/dp/B012345678"
          (assembleResult envAmazon 0 0 "https://www.amazon.in/dp/B012345678" pdW []),
        false⟩ := by
  apply cache_hit_bypasses_fetch
  · decide
  · decide
  · have h := (cache_expiration_law
      (Cache.empty : Cache ResultPayload) "https://www.amazon.in/dp/B012345678"
      (assembleResult envAmazon 0 0 "https://www.amazon.in/dp/B012345678" pdW []) 0 5 5).2.2
    exact h (by decide)

/-- C8: a missing, non-string, empty, unparseable or non-Amazon URL is
rejected with a 400 client error before any fetch work: the fetch stage
is never reached and the cache is unchanged. -/
theorem invalid_input_rejected (env : JsEnv) (cache : Cache ResultPayload)
    (startTime now : ℕ) (body : ReqBody)
    (primary : Settled (Option ProductData))
    (secondary : Settled (Option (List Review)))
    (h : body = .missing ∨ body = .notString ∨
      ∃ url, body = .urlStr url ∧
        (url = "" ∨ env.parseUrl url = none ∨ isValidAmazonUrl env url = false)) :
    (handle env cache startTime now body primary secondary).response.status = 400 ∧
    (handle env cache startTime now body primary secondary).response.isFailure = true ∧
    (handle env cache startTime now body primary secondary).cacheAfter = cache ∧
    (handle env cache startTime now body primary secondary).fetched = false := by
  rcases h with h | h | ⟨url, hb, hc⟩
  · subst h; exact ⟨rfl, rfl, rfl, rfl⟩
  · subst h; exact ⟨rfl, rfl, rfl, rfl⟩
  · subst hb
    by_cases he : url = ""
    · simp [handle, he, Response.status, Response.isFailure]
    · rcases hc with h1 | h2 | h3
      · exact absurd h1 he
      · simp [handle, he, h2, Response.status, Response.isFailure]
      · cases hp : env.parseUrl url with
        | none => simp [handle, he, hp, Response.status, Response.isFailure]
        | some u => simp [handle, he, hp, h3, Response.status, Response.isFailure]

/-- Witness for C8: a well-formed URL with hostname `example.com` is
rejected with status 400, no fetch, cache unchanged. -/
theorem invalid_input_rejected_witness :
    (handle envExample Cache.empty 0 0 (.urlStr "https://example.com/product")
        (.rejected "r") (.rejected "r2")).response.status = 400 ∧
    (handle envExample Cache.empty 0 0 (.urlStr "https://example.com/product")
        (.rejected "r") (.rejected "r2")).response.isFailure = true ∧
    (handle envExample Cache.empty 0 0 (.urlStr "https://example.com/product")
        (.rejected "r") (.rejected "r2")).cacheAfter = Cache.empty ∧
    (handle envExample Cache.empty 0 0 (.urlStr "https://example.com/product")
        (.rejected "r") (.rejected "r2")).fetched = false := by
  exact invalid_input_rejected envExample Cache.empty 0 0 _ _ _
    (Or.inr (Or.inr ⟨"https://example.com/product", rfl,
      Or.inr (Or.inr (by decide))⟩))

/-- C2: on a cache miss for a validated URL, the composed request fails
(with the cache untouched) exactly when the settled primary fetch is a
rejection, carries no value, or carries a snapshot whose title is empty
or the sentinel `"N/A"`; in the remaining cases it succeeds and the
assembled result is written to the cache under the URL. -/
theorem miss_outcome_classification (env : JsEnv) (cache : Cache ResultPayload)
    (startTime now : ℕ) (url : String) (primary : Settled (Option ProductData))
    (secondary : Settled (Option (List Review)))
    (hne : url ≠ "") (hvalid : isValidAmazonUrl env url = true)
    (hmiss : cache.get now url = none) :
    (((∃ m, primary = .rejected m) ∨ primary = .fulfilled none ∨
        (∃ pd, primary = .fulfilled (some pd) ∧ (pd.title = "" ∨ pd.title = "N/A"))) →
      (handle env cache startTime now (.urlStr url) primary secondary).response.isFailure
          = true ∧
      (handle env cache startTime now (.urlStr url) primary secondary).cacheAfter
          = cache) ∧
    (¬((∃ m, primary = .rejected m) ∨ primary = .fulfilled none ∨
        (∃ pd, primary = .fulfilled (some pd) ∧ (pd.title = "" ∨ pd.title = "N/A"))) →
      ∃ r, (handle env cache startTime now (.urlStr url) primary secondary).response
          = .success r ∧
        (handle env cache startTime now (.urlStr url) primary secondary).cacheAfter
          = cache.set now url r) := by
  obtain ⟨u, hu⟩ := exists_parse_of_valid env url hvalid
  have hh : handle env cache startTime now (.urlStr url) primary secondary =
      processMiss env cache startTime now url primary secondary := by
    simp [handle, hne, hu, hvalid, hmiss]
  rw [hh]
  constructor
  · intro hbad
    have hb : primaryUnusable primary = true := by
      rcases hbad with ⟨m, h⟩ | h | ⟨pd, h, ht⟩
      · subst h; rfl
      · subst h; rfl
      · subst h
        rcases ht with ht | ht <;> simp [primaryUnusable, ht]
    simp [processMiss, hb, Response.isFailure]
  · intro hgood
    cases primary with
    | rejected m => exact absurd (Or.inl ⟨m, rfl⟩) hgood
    | fulfilled o =>
      cases o with
      | none => exact absurd (Or.inr (Or.inl rfl)) hgood
      | some pd =>
        have ht1 : pd.title ≠ "" := fun h =>
          hgood (Or.inr (Or.inr ⟨pd, rfl, Or.inl h⟩))
        have ht2 : pd.title ≠ "N/A" := fun h =>
          hgood (Or.inr (Or.inr ⟨pd, rfl, Or.inr h⟩))
        refine ⟨assembleResult env startTime now url pd (reviewsOf secondary), ?_, ?_⟩ <;>
          simp [processMiss, primaryUnusable, ht1, ht2]

/-- Witness for C2: a rejected primary fails without caching; a usable
primary succeeds and is cached. -/
theorem miss_outcome_classification_witness :
    ((handle envAmazon Cache.empty 0 0 (.urlStr "https://www.amazon.in/dp/B0")
        (.rejected "boom") (.fulfilled (some []))).response.isFailure = true ∧
      (handle envAmazon Cache.empty 0 0 (.urlStr "https://www.amazon.in/dp/B0")
        (.rejected "boom") (.fulfilled (some []))).cacheAfter = Cache.empty) ∧
    (∃ r, (handle envAmazon Cache.empty 0 0 (.urlStr "https://www.amazon.in/dp/B0")
        (.fulfilled (some pdW)) (.rejected "x")).response = .success r ∧
      (handle envAmazon Cache.empty 0 0 (.urlStr "https://www.amazon.in/dp/B0")
        (.fulfilled (some pdW)) (.rejected "x")).cacheAfter =
        Cache.empty.set 0 "https://www.amazon.in/dp/B0" r) := by
  constructor
  · exact (miss_outcome_classification envAmazon Cache.empty 0 0
      "https://www.amazon.in/dp/B0" (.rejected "boom") (.fulfilled (some []))
      (by decide) (by decide) rfl).1 (Or.inl ⟨"boom", rfl⟩)
  · exact (miss_outcome_classification envAmazon Cache.empty 0 0
      "https://www.amazon.in/dp/B0" (.fulfilled (some pdW)) (.rejected "x")
      (by decide) (by decide) rfl).2 (by
        rintro (⟨m, h⟩ | h | ⟨pd, h, ht⟩)
        · simp at h
        · simp at h
        · simp only [Settled.fulfilled.injEq, Option.some.injEq] at h
          subst h
          rcases ht with ht | ht <;> simp [pdW] at ht)

/-- C3: with a usable primary snapshot, a failed secondary (rejected, or
fulfilled with a non-array value) never fails the request: the handler
succeeds with the result assembled over the empty review sequence, which
is also what gets cached. -/
theorem secondary_failure_tolerated (env : JsEnv) (cache : Cache ResultPayload)
    (startTime now : ℕ) (url : String) (pd : ProductData)
    (secondary : Settled (Option (List Review)))
    (hne : url ≠ "") (hvalid : isValidAmazonUrl env url = true)
    (hmiss : cache.get now url = none)
    (ht1 : pd.title ≠ "") (ht2 : pd.title ≠ "N/A")
    (hsec : (∃ m, secondary = .rejected m) ∨ secondary = .fulfilled none) :
    handle env cache startTime now (.urlStr url) (.fulfilled (some pd)) secondary =
      ⟨.success (assembleResult env startTime now url pd []),
        cache.set now url (assembleResult env startTime now url pd []), true⟩ := by
  obtain ⟨u, hu⟩ := exists_parse_of_valid env url hvalid
  have hrev : reviewsOf secondary = [] := by
    rcases hsec with ⟨m, h⟩ | h <;> subst h <;> rfl
  have hb : primaryUnusable (.fulfilled (some pd)) = false := by
    simp [primaryUnusable, ht1, ht2]
  simp [handle, hne, hu, hvalid, hmiss, processMiss, hb, hrev]

/-- Witness for C3: a usable snapshot with a rejected reviews fetch
still succeeds, with the empty review sequence, and is cached. -/
theorem secondary_failure_tolerated_witness :
    handle envAmazon Cache.empty 0 0 (.urlStr "https://www.amazon.in/dp/B0")
        (.fulfilled (some pdW)) (.rejected "reviews down") =
      ⟨.success (assembleResult envAmazon 0 0 "https://www.amazon.in/dp/B0" pdW []),
        Cache.empty.set 0 "https://www.amazon.in/dp/B0"
          (assembleResult envAmazon 0 0 "https://www.amazon.in/dp/B0" pdW []), true⟩ := by
  exact secondary_failure_tolerated envAmazon Cache.empty 0 0
    "https://www.amazon.in/dp/B0" pdW (.rejected "reviews down")
    (by decide) (by decide) rfl (by decide) (by decide)
    (Or.inl ⟨"reviews down", rfl⟩)

theorem ite_isEmpty_ne_nil (l : List String) (x : String) :
    (if l.isEmpty then [x] else l) ≠ [] := by
  cases l <;> simp

theorem ite_isEmpty_cons_ne_nil (l rest : List String) (x : String) :
    (if l.isEmpty then x :: rest else l) ≠ [] := by
  cases l <;> simp

/-- C9: the derived-field computation is a total function of the snapshot
and review sequence (the sentiment triple is always produced, by
construction), and the `keyInsights`, `pros` and `cons` lists of the
assembled result are never empty — the fallback entries guarantee
non-empty defaults on arbitrarily sparse inputs. -/
theorem derived_fields_nonempty (env : JsEnv) (pd : ProductData)
    (reviews : List Review) (startTime now : ℕ) (url : String) :
    (assembleResult env startTime now url pd reviews).analysis.keyInsights ≠ [] ∧
    (assembleResult env startTime now url pd reviews).analysis.pros ≠ [] ∧
    (assembleResult env startTime now url pd reviews).analysis.cons ≠ [] := by
  refine ⟨?_, ?_, ?_⟩
  · show keyInsightsOf env pd reviews.length ≠ []
    simp only [keyInsightsOf]
    apply ite_isEmpty_ne_nil
  · show prosOf env pd reviews ≠ []
    simp only [prosOf]
    apply ite_isEmpty_cons_ne_nil
  · show consOf env pd reviews ≠ []
    simp only [consOf]
    apply ite_isEmpty_ne_nil

/-- C1 (code-bug evidence): when every adapter attempt is rate-limited,
the adapter surfaces the `RATE_LIMITED` rejection after exhausting its
budget, and the handler then fails with the generic 400
"Unable to extract product information" response — not a distinct
rate-limited (429) class — while caching nothing. Moreover the route's
rate-limit catch branch matches `'rate limit'` / `'429'`, neither of
which occurs in the adapter's `RATE_LIMITED` message. -/
theorem rate_limited_exhaustion_yields_generic_error :
    (runPythonScript (fun _ => .error "RATE_LIMITED") MAX_RETRIES).1 =
      .error "RATE_LIMITED" ∧
    (handle envAmazon Cache.empty 0 0 (.urlStr "https://www.amazon.in/dp/B012345678")
        (.rejected "RATE_LIMITED") (.rejected "RATE_LIMITED")).response =
      .failure 400 "Unable to extract product information"
        (some ("The product page may be protected or temporarily unavailable. "
          ++ "Please try again in a few minutes.")) ∧
    (handle envAmazon Cache.empty 0 0 (.urlStr "https://www.amazon.in/dp/B012345678")
        (.rejected "RATE_LIMITED") (.rejected "RATE_LIMITED")).response.status ≠ 429 ∧
    (handle envAmazon Cache.empty 0 0 (.urlStr "https://www.amazon.in/dp/B012345678")
        (.rejected "RATE_LIMITED") (.rejected "RATE_LIMITED")).cacheAfter =
      Cache.empty ∧
    containsSub "RATE_LIMITED" "rate limit" = false ∧
    containsSub "RATE_LIMITED" "429" = false := by
  refine ⟨rfl, ?_, ?_, ?_, by decide, by decide⟩
  · rfl
  · decide
  · rfl

end RevTrack
